import Mathlib

/-!
# Verification of the PackChain IoT / ledger core

Shallow embedding of the device telemetry ingestion pipeline
(`server/services/iot.js`), the IoT HTTP routes (`server/routes/iot.js`)
and the ledger gateway (`server/services/blockchain.js`), together with
proofs of the specified properties.

Conventions:
* JavaScript `Map` objects (insertion-ordered, key-updating `set`) are
  embedded as association lists with an update-in-place-or-append `set`.
* Timestamps (`new Date().toISOString()`) are threaded in explicitly as
  natural numbers.
* A parsed JSON payload is embedded as a structured record of the fields
  the service reads; `JSON.parse` failure is `Option.none`.
* JavaScript truthiness tests (`if (message.battery)`, `status.status ||
  'online'`) are embedded field-by-field: a number is falsy iff it is 0
  or absent, a string is falsy iff it is empty or absent, an object is
  falsy iff absent.
-/

namespace PackChain

/-- A parsed MQTT JSON payload, restricted to the fields the IoT service
reads (`battery`, `signal`, `location`, `status`, `firmware`); all other
payload content is kept opaque in `payload`. -/
structure IoTMessage where
  battery : Option Nat := none
  signal : Option Nat := none
  location : Option String := none
  status : Option String := none
  firmware : Option String := none
  payload : String := ""
deriving Repr, DecidableEq

/-- JS truthiness of an optional number field: `0`, `null` and `undefined`
are falsy. -/
def truthyNat : Option Nat → Bool
  | some n => n != 0
  | none => false

/-- JS truthiness of an optional string field: `""`, `null` and
`undefined` are falsy. -/
def truthyStr : Option String → Bool
  | some s => s != ""
  | none => false

/-- JS truthiness of an optional object field: objects are always truthy,
so the test is presence. -/
def truthyObj {α : Type} (o : Option α) : Bool := o.isSome

/-- A device record as stored in the `iotDevices` map. -/
structure Device where
  id : String
  status : String
  lastSeen : Nat
  batteryLevel : Option Nat := none
  signalStrength : Option Nat := none
  location : Option String := none
  firmware : Option String := none
deriving Repr, DecidableEq

/-- A stored telemetry sample: `{ value: data, timestamp }`. -/
structure Telemetry where
  value : IoTMessage
  timestamp : Nat
deriving Repr, DecidableEq

/-- JS `Map.prototype.set`: update the value in place when the key is
present (keeping its insertion position), append at the end otherwise. -/
def mapSet {α : Type} : List (String × α) → String → α → List (String × α)
  | [], k, v => [(k, v)]
  | (a, b) :: t, k, v => if a = k then (k, v) :: t else (a, b) :: mapSet t k v

/-- The mutable module state of `server/services/iot.js`: the `iotDevices`
and `sensorData` maps. -/
structure IoTState where
  iotDevices : List (String × Device) := []
  sensorData : List (String × List Telemetry) := []
deriving Repr, DecidableEq

/-- The state at module load: both maps empty. -/
def initialIoTState : IoTState := {}

/-- Events emitted on the `iotEvents` emitter. -/
inductive IoTEvent where
  | telemetry (deviceId : String) (t : Telemetry)
  | status (deviceId : String) (m : IoTMessage)
  | nfcScan (readerId : String) (m : IoTMessage)
deriving Repr, DecidableEq

/-- `updateDevice(deviceId, message)`: create the record with status
`'online'` if absent, refresh `lastSeen`, and merge each truthy supplied
field. -/
def updateDevice (s : IoTState) (deviceId : String) (message : IoTMessage)
    (now : Nat) : IoTState :=
  let base : Device :=
    match s.iotDevices.lookup deviceId with
    | some d => d
    | none => { id := deviceId, status := "online", lastSeen := now }
  let d1 := { base with lastSeen := now }
  let d2 := if truthyNat message.battery then
      { d1 with batteryLevel := message.battery } else d1
  let d3 := if truthyNat message.signal then
      { d2 with signalStrength := message.signal } else d2
  let d4 := if truthyObj message.location then
      { d3 with location := message.location } else d3
  { s with iotDevices := mapSet s.iotDevices deviceId d4 }

/-- `storeSensorData(deviceId, data)`: push `{value, timestamp}` onto the
device's history, shift the oldest entry once the length exceeds 200, and
emit a `telemetry` event. -/
def storeSensorData (s : IoTState) (deviceId : String) (data : IoTMessage)
    (now : Nat) : IoTState × IoTEvent :=
  let deviceHistory := (s.sensorData.lookup deviceId).getD []
  let telemetry : Telemetry := { value := data, timestamp := now }
  let pushed := deviceHistory ++ [telemetry]
  let bounded := if pushed.length > 200 then pushed.tail else pushed
  ({ s with sensorData := mapSet s.sensorData deviceId bounded },
   .telemetry deviceId telemetry)

/-- `updateDeviceStatus(deviceId, status)`: if the device exists, set its
status to `status.status || 'online'` and its firmware to
`status.firmware || device.firmware`; always emit a `status` event. -/
def updateDeviceStatus (s : IoTState) (deviceId : String)
    (status : IoTMessage) : IoTState × IoTEvent :=
  let s' :=
    match s.iotDevices.lookup deviceId with
    | some device =>
        let newStatus := if truthyStr status.status then
            status.status.getD "online" else "online"
        let newFirmware := if truthyStr status.firmware then
            status.firmware else device.firmware
        let updated := { device with status := newStatus, firmware := newFirmware }
        { s with iotDevices := mapSet s.iotDevices deviceId updated }
    | none => s
  (s', .status deviceId status)

/-- `handleNFCScan(readerId, scanData)`: emit an `nfc_scan` event only. -/
def handleNFCScan (readerId : String) (scanData : IoTMessage) : IoTEvent :=
  .nfcScan readerId scanData

/-- An inbound broker message: the raw topic, the result of
`JSON.parse(payload.toString())` (`none` when the payload fails to parse)
and the receipt time. -/
structure InboundMessage where
  topic : String
  parsed : Option IoTMessage
  now : Nat

/-- JS `topic.split('/')` on the topic's character list: splitting on a
single character, `"a/b/c"` gives `["a","b","c"]`, `""` gives `[""]` and
adjacent separators give empty segments. -/
def splitParts : List Char → List (List Char)
  | [] => [[]]
  | c :: rest =>
      if c = '/' then [] :: splitParts rest
      else
        match splitParts rest with
        | [] => [[c]]
        | p :: ps => (c :: p) :: ps

/-- `topic.split('/')[i]`, with `""` for an out-of-range index. -/
def topicPart (topic : String) (i : Nat) : String :=
  (((splitParts topic.data).map String.mk).get? i).getD ""

/-- `topicParts[1]` of `topic.split('/')`: the device id. -/
def topicDeviceId (topic : String) : String := topicPart topic 1

/-- `topicParts[2]` of `topic.split('/')`: the message kind. -/
def topicMessageType (topic : String) : String := topicPart topic 2

/-- The `mqttClient.on('message', ...)` handler body: on a parse failure
the `catch` logs and discards, leaving the state untouched and emitting
nothing; otherwise `updateDevice` runs, then the branch selected by the
message kind. The handler is a total function: it never crashes. -/
def processMessage (s : IoTState) (msg : InboundMessage) :
    IoTState × List IoTEvent :=
  match msg.parsed with
  | none => (s, [])
  | some message =>
      let deviceId := topicDeviceId msg.topic
      let messageType := topicMessageType msg.topic
      let s1 := updateDevice s deviceId message msg.now
      if messageType = "telemetry" then
        let (s2, e) := storeSensorData s1 deviceId message msg.now
        (s2, [e])
      else if messageType = "status" then
        let (s2, e) := updateDeviceStatus s1 deviceId message
        (s2, [e])
      else if messageType = "nfc" then
        (s1, [handleNFCScan deviceId message])
      else (s1, [])

/-- Fold a list of inbound messages through the handler, from a given
state (the event log is discarded). -/
def runMessages (s : IoTState) (msgs : List InboundMessage) : IoTState :=
  msgs.foldl (fun st m => (processMessage st m).1) s

/-- `getDeviceStatus(deviceId)`: `iotDevices.get(deviceId)`. -/
def getDeviceStatus (s : IoTState) (deviceId : String) : Option Device :=
  s.iotDevices.lookup deviceId

/-- `getAllDevices()`: the values of `iotDevices`, in insertion order. -/
def getAllDevices (s : IoTState) : List Device :=
  s.iotDevices.map Prod.snd

/-- JS `array.slice(-limit)`: the whole array when `limit = 0`
(`slice(-0)` is `slice(0)`), otherwise the last `min limit length`
elements. -/
def jsSliceLast {α : Type} (l : List α) (limit : Nat) : List α :=
  if limit = 0 then l else l.drop (l.length - limit)

/-- `getSensorHistory(deviceId, limit = 50)`:
`(sensorData.get(deviceId) || []).slice(-limit)`. -/
def getSensorHistory (s : IoTState) (deviceId : String)
    (limit : Nat := 50) : List Telemetry :=
  jsSliceLast ((s.sensorData.lookup deviceId).getD []) limit

/-- The record returned by `getNetworkHealth()` (timestamp omitted). -/
structure NetworkHealth where
  totalDevices : Nat
  onlineDevices : Nat
  offlineDevices : Nat
  onlinePercentage : ℚ
  avgBatteryLevel : Option ℤ
deriving Repr, DecidableEq

/-- JS `Math.round` on a rational: `⌊x + 1/2⌋`. -/
def jsMathRound (x : ℚ) : ℤ := ⌊x + 1 / 2⌋

/-- `getNetworkHealth()`: zero devices yields the explicit
`onlinePercentage = 100`, `avgBatteryLevel = null` record; otherwise
aggregate over the devices, counting a device online iff its `status`
field equals `'online'` and averaging `batteryLevel` over the devices
that have one. -/
def getNetworkHealth (s : IoTState) : NetworkHealth :=
  let devices := getAllDevices s
  if devices.length = 0 then
    { totalDevices := 0, onlineDevices := 0, offlineDevices := 0,
      onlinePercentage := 100, avgBatteryLevel := none }
  else
    let onlineDevices := (devices.filter (fun d => d.status = "online")).length
    let totalBattery := devices.foldl (fun (sum : Nat) d => sum + d.batteryLevel.getD 0) 0
    let devicesWithBattery := (devices.filter (fun d => d.batteryLevel.isSome)).length
    { totalDevices := devices.length,
      onlineDevices := onlineDevices,
      offlineDevices := devices.length - onlineDevices,
      onlinePercentage := (onlineDevices : ℚ) / (devices.length : ℚ) * 100,
      avgBatteryLevel := if devicesWithBattery > 0 then
          some (jsMathRound ((totalBattery : ℚ) / (devicesWithBattery : ℚ)))
        else none }

/-- `GET /iot/devices/:deviceId`: 200 with the record when found,
404 with no record otherwise. -/
def routeGetDevice (s : IoTState) (deviceId : String) : Nat × Option Device :=
  match getDeviceStatus s deviceId with
  | some device => (200, some device)
  | none => (404, none)

/-! ## Event bus and streaming gateway (`iotEvents`, `GET /iot/events`)

The `EventEmitter` listener table is embedded as a list of
(event name, listener identity) pairs in registration order; each
registered closure gets a fresh numeric identity drawn from a counter,
since every `router.get('/events')` invocation creates new closures. -/

/-- The `iotEvents` emitter's listener table. -/
structure EventBusState where
  listeners : List (String × Nat) := []
  nextId : Nat := 0
deriving Repr, DecidableEq

/-- `emitter.on(event, listener)`: append the listener for that event
name; returns the fresh listener identity. -/
def busOn (b : EventBusState) (event : String) : EventBusState × Nat :=
  ({ listeners := b.listeners ++ [(event, b.nextId)], nextId := b.nextId + 1 },
   b.nextId)

/-- `emitter.removeListener(event, listener)`: remove at most one
matching registration (listener identities are unique, so at most one
match exists). -/
def busRemoveListener (b : EventBusState) (event : String) (id : Nat) :
    EventBusState :=
  { b with listeners := b.listeners.erase (event, id) }

/-- The three listener identities held by one `/iot/events` observer. -/
structure StreamHandle where
  telemetryId : Nat
  statusId : Nat
  nfcId : Nat
deriving Repr, DecidableEq

/-- The subscription half of `router.get('/events')`: register the
`telemetry`, `status` and `nfc_scan` listeners, in that order. -/
def openStream (b : EventBusState) : EventBusState × StreamHandle :=
  let (b1, telemetryId) := busOn b "telemetry"
  let (b2, statusId) := busOn b1 "status"
  let (b3, nfcId) := busOn b2 "nfc_scan"
  (b3, { telemetryId := telemetryId, statusId := statusId, nfcId := nfcId })

/-- The `req.on('close', ...)` handler of `router.get('/events')`:
remove the observer's three listeners. -/
def closeStream (b : EventBusState) (h : StreamHandle) : EventBusState :=
  let b1 := busRemoveListener b "telemetry" h.telemetryId
  let b2 := busRemoveListener b1 "status" h.statusId
  busRemoveListener b2 "nfc_scan" h.nfcId

/-- `emitter.listenerCount(event)`. -/
def listenerCount (b : EventBusState) (event : String) : Nat :=
  (b.listeners.filter (fun p => p.1 = event)).length

/-- One full observer lifetime: connect to `/iot/events`, then close the
connection. -/
def streamCycle (b : EventBusState) : EventBusState :=
  let (b1, h) := openStream b
  closeStream b1 h

/-! ## Command dispatcher (`sendCommandToDevice`, `POST
/iot/devices/:deviceId/command`)

`sendCommandToDevice` never consults the broker connection state: it
hands the envelope to `mqttClient.publish` unconditionally, and a publish
error reaches only the logging callback, never the caller. The mqtt.js
client buffers outgoing packets while disconnected, so the embedding
records the connection flag and an outbox of envelopes handed to the
client. -/

/-- The broker client as seen from `sendCommandToDevice`: whether the
transport is currently connected, and the envelopes handed over for
delivery. -/
structure MqttClientState where
  connected : Bool
  outbox : List (String × String) := []
deriving Repr, DecidableEq

/-- `sendCommandToDevice(deviceId, command, payload)`: build the command
topic and envelope and call `mqttClient.publish`. The returned `Option
String` is the error surfaced synchronously to the caller: always `none`,
because the publish callback only logs. -/
def sendCommandToDevice (client : MqttClientState) (deviceId command payload : String) :
    MqttClientState × Option String :=
  let commandTopic := "iot/" ++ deviceId ++ "/command"
  let message := "\x7b\"command\":\"" ++ command ++ "\"," ++ payload ++ "\x7d"
  ({ client with outbox := client.outbox ++ [(commandTopic, message)] }, none)

/-- `POST /iot/devices/:deviceId/command`: after validation, call
`sendCommandToDevice` and respond `202`; the `catch` branch (500) is
unreachable because `sendCommandToDevice` returns normally. Returns the
client state, the HTTP status and the error surfaced to the caller. -/
def commandRoute (client : MqttClientState) (deviceId command payload : String)
    (validationOk : Bool) : MqttClientState × Nat × Option String :=
  if !validationOk then (client, 400, some "validation errors")
  else
    let (client', err) := sendCommandToDevice client deviceId command payload
    (client', 202, err)

/-! ## Ledger gateway (`server/services/blockchain.js`)

`connectToGateway` performs, in order: read the connection profile, open
the wallet, `gateway.connect` (this opens the network session),
`gateway.getNetwork` and `network.getContract` (these can reject after
the session is open), and only then returns the `{contract, gateway}`
pair. `submitTransaction` / `evaluateTransaction` keep `gateway` in a
local variable that is assigned only after `connectToGateway` resolves,
and their `finally` blocks call `gateway.disconnect()` only when that
local is set. Each fallible external step is embedded as a boolean of the
environment. -/

/-- Which external steps of one submit/evaluate call succeed. -/
structure LedgerEnv where
  connectOk : Bool
  getNetworkOk : Bool
  invokeOk : Bool
deriving Repr, DecidableEq

/-- Outcome of `connectToGateway()`. -/
inductive ConnectOutcome where
  /-- `gateway.connect` rejected: the call throws with no session open. -/
  | failedNoSession
  /-- `gateway.connect` resolved but `gateway.getNetwork` (or contract
  resolution) rejected: the call throws with the session open and the
  gateway handle is never returned to the caller. -/
  | failedSessionOpen
  /-- `{contract, gateway}` returned. -/
  | ok
deriving Repr, DecidableEq

/-- `connectToGateway()`. -/
def connectToGateway (env : LedgerEnv) : ConnectOutcome :=
  if !env.connectOk then .failedNoSession
  else if !env.getNetworkOk then .failedSessionOpen
  else .ok

/-- Result of one submit/evaluate call: whether a gateway session is
still open after the call returns, and what the caller sees. -/
structure LedgerCallResult where
  sessionOpen : Bool
  result : Except String String
deriving Repr

/-- `submitTransaction(functionName, args)`: `try` connect and invoke,
`catch` rethrows, `finally` disconnects iff the local `gateway` was
assigned. -/
def submitTransaction (env : LedgerEnv) : LedgerCallResult :=
  match connectToGateway env with
  | .failedNoSession =>
      { sessionOpen := false, result := .error "connect failed" }
  | .failedSessionOpen =>
      { sessionOpen := true, result := .error "connect failed" }
  | .ok =>
      if env.invokeOk then
        { sessionOpen := false, result := .ok "result" }
      else
        { sessionOpen := false, result := .error "submit failed" }

/-- `evaluateTransaction(functionName, args)`: same structure as
`submitTransaction` with `contract.evaluateTransaction` as the
invocation. -/
def evaluateTransaction (env : LedgerEnv) : LedgerCallResult :=
  match connectToGateway env with
  | .failedNoSession =>
      { sessionOpen := false, result := .error "connect failed" }
  | .failedSessionOpen =>
      { sessionOpen := true, result := .error "connect failed" }
  | .ok =>
      if env.invokeOk then
        { sessionOpen := false, result := .ok "result" }
      else
        { sessionOpen := false, result := .error "evaluate failed" }

/-! ## Identity provisioner (`initializeBlockchain`)

The admin branch matches the spec: if `admin` is absent, enroll with the
bootstrap secret and store. The application-identity branch, however,
evaluates `await gateway.getIdentity('admin')` — and no binding named
`gateway` exists in any enclosing scope of `initializeBlockchain`, so
that line throws a `ReferenceError` before the certificate authority is
contacted; the surrounding `catch` then calls `process.exit(1)`. The
registration/enrollment/`wallet.put` code below that line is dead. -/

/-- The credential store (`wallet`) as seen by `initializeBlockchain`:
whether the `admin` and `appUser` identities are present. -/
structure WalletState where
  hasAdmin : Bool
  hasAppUser : Bool
deriving Repr, DecidableEq

/-- How `initializeBlockchain` ends. -/
inductive InitOutcome where
  /-- Reached the final success log; the process goes on to serve. -/
  | serving
  /-- `process.exit(1)` from the `catch` block. -/
  | fatalExit
deriving Repr, DecidableEq

/-- `initializeBlockchain()`: enroll-and-store `admin` when absent
(succeeding iff `caEnrollAdminOk`); then, when `appUser` is absent, the
`gateway.getIdentity('admin')` line throws a `ReferenceError` (there is
no `gateway` in scope), so the `catch` exits fatally before any
registration, enrollment or `wallet.put` for `appUser` can run. Returns
the wallet state after the call and the outcome. -/
def initializeBlockchain (w : WalletState) (caEnrollAdminOk : Bool) :
    WalletState × InitOutcome :=
  let adminStep : WalletState × Bool :=
    if w.hasAdmin then (w, true)
    else if caEnrollAdminOk then ({ w with hasAdmin := true }, true)
    else (w, false)
  let w1 := adminStep.1
  if !adminStep.2 then (w1, .fatalExit)
  else if w1.hasAppUser then (w1, .serving)
  else (w1, .fatalExit)

/-! ## Lemmas about the embedded maps -/

theorem lookup_mapSet_self {α : Type} (m : List (String × α)) (k : String) (v : α) :
    (mapSet m k v).lookup k = some v := by
  induction m with
  | nil => simp [mapSet, List.lookup]
  | cons hd t ih =>
      obtain ⟨a, b⟩ := hd
      by_cases hak : a = k
      · simp [mapSet, hak, List.lookup]
      · simp only [mapSet, if_neg hak, List.lookup]
        have : (k == a) = false := by simp [Ne.symm hak]
        simp [this, ih]

theorem lookup_mapSet_ne {α : Type} (m : List (String × α)) (k k' : String) (v : α)
    (h : k' ≠ k) : (mapSet m k v).lookup k' = m.lookup k' := by
  induction m with
  | nil =>
      have : (k' == k) = false := by simp [h]
      simp [mapSet, List.lookup, this]
  | cons hd t ih =>
      obtain ⟨a, b⟩ := hd
      by_cases hak : a = k
      · subst hak
        simp only [mapSet, if_pos rfl, List.lookup]
        have : (k' == a) = false := by simp [h]
        simp [this]
      · simp only [mapSet, if_neg hak, List.lookup]
        by_cases hka : k' = a
        · simp [hka]
        · have : (k' == a) = false := by simp [hka]
          simp [this, ih]

/-! ## C9 — network health with an empty registry -/

/-- C9: when the Device Registry contains zero devices, `getNetworkHealth`
returns `totalDevices = 0`, `onlinePercentage = 100` and
`avgBatteryLevel = null` (the explicit no-data sentinel), and does not
raise an error (it is a total function). -/
theorem networkHealth_empty_registry (s : IoTState) (h : s.iotDevices = []) :
    getNetworkHealth s =
      { totalDevices := 0, onlineDevices := 0, offlineDevices := 0,
        onlinePercentage := 100, avgBatteryLevel := none } := by
  simp [getNetworkHealth, getAllDevices, h]

/-- Witness for C9 at the module-load state. -/
theorem networkHealth_empty_registry_witness :
    initialIoTState.iotDevices = [] ∧
    getNetworkHealth initialIoTState =
      { totalDevices := 0, onlineDevices := 0, offlineDevices := 0,
        onlinePercentage := 100, avgBatteryLevel := none } :=
  ⟨rfl, networkHealth_empty_registry initialIoTState rfl⟩

/-! ## C3 — malformed payloads are logged and discarded -/

/-- C3: a broker message whose payload fails to parse leaves the state
untouched and publishes no event (so the Device Registry record for the
device is neither created nor modified), the handler returns normally
(it is a total function, so the adapter does not crash), and a
subsequent well-formed message is processed exactly as it would have
been without the malformed one. -/
theorem malformed_message_discarded (s : IoTState) (topic : String) (now : Nat)
    (next : InboundMessage) :
    processMessage s { topic := topic, parsed := none, now := now } = (s, []) ∧
    runMessages s [{ topic := topic, parsed := none, now := now }, next] =
      runMessages s [next] := by
  constructor
  · rfl
  · rfl

/-! ## C2 — ledger session cleanup -/

/-- C2 counterexample: with `gateway.connect` succeeding and
`gateway.getNetwork` rejecting, both `submitTransaction` and
`evaluateTransaction` return with the per-call session still open
(`connectToGateway` throws after opening the session, the local
`gateway` variable is never assigned, and the `finally` block therefore
skips `gateway.disconnect()`). This refutes the claim that the session
opened for the call is closed on every exit path. -/
theorem ledger_session_leak_counterexample :
    (submitTransaction { connectOk := true, getNetworkOk := false, invokeOk := true }).sessionOpen = true ∧
    (evaluateTransaction { connectOk := true, getNetworkOk := false, invokeOk := true }).sessionOpen = true := by
  exact ⟨rfl, rfl⟩

/-- C2 amended: whenever the network-resolution step inside
`connectToGateway` does not reject (or no session is ever opened because
`gateway.connect` itself rejects), the session is closed on every exit
path of `submit` and `evaluate` — success, business/transport error of
the invocation, or connect failure. -/
theorem ledger_session_closed (env : LedgerEnv)
    (h : env.connectOk = false ∨ env.getNetworkOk = true) :
    (submitTransaction env).sessionOpen = false ∧
    (evaluateTransaction env).sessionOpen = false := by
  obtain ⟨c, g, i⟩ := env
  cases c <;> cases g <;> cases i <;>
    first
      | exact ⟨rfl, rfl⟩
      | simp_all

/-- Witness for C2 (amended): a call whose invocation itself throws
still ends with the session closed. -/
theorem ledger_session_closed_witness :
    (({ connectOk := true, getNetworkOk := true, invokeOk := false } : LedgerEnv).connectOk = false ∨
      ({ connectOk := true, getNetworkOk := true, invokeOk := false } : LedgerEnv).getNetworkOk = true) ∧
    (submitTransaction { connectOk := true, getNetworkOk := true, invokeOk := false }).sessionOpen = false ∧
    (evaluateTransaction { connectOk := true, getNetworkOk := true, invokeOk := false }).sessionOpen = false :=
  ⟨Or.inr rfl,
   ledger_session_closed { connectOk := true, getNetworkOk := true, invokeOk := false } (Or.inr rfl)⟩

/-! ## C4 — send-command while disconnected -/

/-- C4 counterexample: with the broker connection disconnected, a
`send` call surfaces no error to the caller (`sendCommandToDevice`
contains no connection-state check and publish errors reach only the
logging callback), the command envelope is still handed to the broker
client, and the HTTP route replies 202 — refuting the claim that the
call fails immediately with a transient-unavailable error and is not
queued. -/
theorem send_disconnected_counterexample :
    (sendCommandToDevice { connected := false } "dev1" "reboot" "\"a\":1").2 = none ∧
    (sendCommandToDevice { connected := false } "dev1" "reboot" "\"a\":1").1.outbox ≠ [] ∧
    (commandRoute { connected := false } "dev1" "reboot" "\"a\":1" true).2.1 = 202 ∧
    (commandRoute { connected := false } "dev1" "reboot" "\"a\":1" true).2.2 = none := by
  refine ⟨rfl, ?_, rfl, rfl⟩
  decide

/-- C4 amended: regardless of the broker connection state — including
`Disconnected` — `send` never fails: no error is surfaced to the caller,
the command envelope is unconditionally appended to the broker client's
outgoing buffer (so while disconnected it is queued by the client rather
than rejected), and a validated HTTP command request is answered 202
with no error. -/
theorem send_never_fails (client : MqttClientState) (deviceId command payload : String) :
    (sendCommandToDevice client deviceId command payload).2 = none ∧
    (sendCommandToDevice client deviceId command payload).1.outbox =
      client.outbox ++
        [("iot/" ++ deviceId ++ "/command",
          "\x7b\"command\":\"" ++ command ++ "\"," ++ payload ++ "\x7d")] ∧
    (commandRoute client deviceId command payload true).2.1 = 202 ∧
    (commandRoute client deviceId command payload true).2.2 = none := by
  exact ⟨rfl, rfl, rfl, rfl⟩

/-! ## C8 — application-identity provisioning -/

/-- C8: with the administrative identity present and the application
identity absent, `initializeBlockchain` exits fatally without storing
the application identity — the `gateway.getIdentity('admin')` line
throws a `ReferenceError` (no `gateway` binding is in scope), so the
registration/enrollment/store sequence the spec describes never runs;
only the fatal-exit half of the claim holds. The result is the same
whether or not the certificate authority would have cooperated. -/
theorem provisioning_always_fatal :
    initializeBlockchain { hasAdmin := true, hasAppUser := false } true =
      ({ hasAdmin := true, hasAppUser := false }, .fatalExit) ∧
    initializeBlockchain { hasAdmin := true, hasAppUser := false } false =
      ({ hasAdmin := true, hasAppUser := false }, .fatalExit) := by
  exact ⟨rfl, rfl⟩

/-! ## C5 — observer disconnect removes all three listeners -/

theorem erase_mid (L l2 : List (String × Nat)) (x : String × Nat) (hx : x ∉ L) :
    ((L ++ [x]) ++ l2).erase x = L ++ l2 := by
  rw [List.append_assoc, List.erase_append_right _ hx, List.singleton_append,
    List.erase_cons_head]

theorem streamCycle_fresh (b : EventBusState)
    (hb : ∀ p ∈ b.listeners, p.2 < b.nextId) :
    streamCycle b = { listeners := b.listeners, nextId := b.nextId + 3 } := by
  have h1 : ("telemetry", b.nextId) ∉ b.listeners := by
    intro hmem
    have h' : b.nextId < b.nextId := hb _ hmem
    omega
  have h2 : ("status", b.nextId + 1) ∉ b.listeners := by
    intro hmem
    have h' : b.nextId + 1 < b.nextId := hb _ hmem
    omega
  have h3 : ("nfc_scan", b.nextId + 1 + 1) ∉ b.listeners := by
    intro hmem
    have h' : b.nextId + 1 + 1 < b.nextId := hb _ hmem
    omega
  have hstep : streamCycle b =
      { listeners := (((((b.listeners ++ [("telemetry", b.nextId)]) ++
            [("status", b.nextId + 1)]) ++
            [("nfc_scan", b.nextId + 1 + 1)]).erase ("telemetry", b.nextId)).erase
            ("status", b.nextId + 1)).erase ("nfc_scan", b.nextId + 1 + 1),
        nextId := b.nextId + 1 + 1 + 1 } := rfl
  rw [hstep, List.append_assoc (b.listeners ++ [("telemetry", b.nextId)]),
    erase_mid _ _ _ h1, List.singleton_append,
    List.erase_append_right _ h2, List.erase_cons_head,
    List.erase_append_right _ h3, List.erase_cons_head, List.append_nil]

theorem streamCycle_iterate (n : Nat) :
    streamCycle^[n] ({ listeners := [], nextId := 0 } : EventBusState) =
      { listeners := [], nextId := 3 * n } := by
  induction n with
  | zero => rfl
  | succ k ih =>
      rw [Function.iterate_succ_apply', ih,
        streamCycle_fresh _ (by intro p hp; simp at hp)]
      congr 1

/-- C5: every open-then-close observer cycle on `/iot/events` removes
exactly the three Event Bus listeners it registered (`telemetry`,
`status`, `nfc_scan`), so after any number of such cycles starting from
a bus with no listeners, the active listener count of each of the three
categories is 0; moreover a single close on any bus whose registered
listener identities are fresh restores the listener table exactly. -/
theorem observer_cycles_no_listener_leak (n : Nat) :
    listenerCount (streamCycle^[n] ({ listeners := [], nextId := 0 } : EventBusState)) "telemetry" = 0 ∧
    listenerCount (streamCycle^[n] ({ listeners := [], nextId := 0 } : EventBusState)) "status" = 0 ∧
    listenerCount (streamCycle^[n] ({ listeners := [], nextId := 0 } : EventBusState)) "nfc_scan" = 0 ∧
    ∀ b : EventBusState, (∀ p ∈ b.listeners, p.2 < b.nextId) →
      (streamCycle b).listeners = b.listeners := by
  refine ⟨?_, ?_, ?_, ?_⟩ <;>
    first
      | (rw [streamCycle_iterate]; rfl)
      | (intro b hb; rw [streamCycle_fresh b hb])

/-- Witness for C5: 1000 open-then-close cycles leave a zero listener
count, and a close on a concrete one-listener bus with a fresh handle
restores its table. -/
theorem observer_cycles_no_listener_leak_witness :
    listenerCount (streamCycle^[1000] ({ listeners := [], nextId := 0 } : EventBusState)) "telemetry" = 0 ∧
    (∀ p ∈ ({ listeners := [("telemetry", 0)], nextId := 1 } : EventBusState).listeners, p.2 < 1) ∧
    (streamCycle { listeners := [("telemetry", 0)], nextId := 1 }).listeners = [("telemetry", 0)] :=
  ⟨(observer_cycles_no_listener_leak 1000).1, by decide,
   (observer_cycles_no_listener_leak 1000).2.2.2 _ (by decide)⟩

/-! ## C1 — bounded FIFO telemetry history -/

/-- Fold `storeSensorData` over a sequence of telemetry payloads for one
device; each element carries the payload and its receipt timestamp. -/
def storeAllTelemetry (s : IoTState) (deviceId : String)
    (msgs : List (IoTMessage × Nat)) : IoTState :=
  msgs.foldl (fun st p => (storeSensorData st deviceId p.1 p.2).1) s

/-- The last `n` elements of a list, in order. -/
def lastN {α : Type} (n : Nat) (l : List α) : List α := l.drop (l.length - n)

theorem lastN_of_le {α : Type} (n : Nat) (l : List α) (h : l.length ≤ n) :
    lastN n l = l := by
  simp [lastN, Nat.sub_eq_zero_of_le h]

theorem length_lastN {α : Type} (n : Nat) (l : List α) :
    (lastN n l).length = min n l.length := by
  simp only [lastN, List.length_drop]
  omega

theorem lastN_append_lastN {α : Type} (n : Nat) (a b : List α) :
    lastN n (lastN n a ++ b) = lastN n (a ++ b) := by
  by_cases h : a.length ≤ n
  · rw [lastN_of_le n a h]
  · unfold lastN
    have hlen : (a.drop (a.length - n)).length = n := by
      rw [List.length_drop]
      omega
    rw [List.length_append, List.length_append, hlen]
    have e1 : n + b.length - n = b.length := by omega
    have e2 : a.length + b.length - n = (a.length - n) + b.length := by omega
    rw [e1, e2, ← List.drop_drop,
      List.drop_append_of_le_length (Nat.sub_le a.length n)]

/-- One `storeSensorData` step keeps exactly the last 200 of the device's
samples, provided the stored history was within the bound. -/
theorem storeSensorData_history (s : IoTState) (d : String) (m : IoTMessage)
    (now : Nat) (h : ((s.sensorData.lookup d).getD []).length ≤ 200) :
    ((storeSensorData s d m now).1.sensorData.lookup d).getD [] =
      lastN 200 (((s.sensorData.lookup d).getD []) ++
        [{ value := m, timestamp := now }]) := by
  simp only [storeSensorData, lookup_mapSet_self, Option.getD_some]
  set hist := (s.sensorData.lookup d).getD [] with hh
  by_cases hlen : (hist ++ [({ value := m, timestamp := now } : Telemetry)]).length > 200
  · rw [if_pos hlen]
    have h200 : hist.length = 200 := by
      simp only [List.length_append, List.length_singleton] at hlen
      omega
    simp only [lastN, List.length_append, List.length_singleton, h200,
      show (200 : Nat) + 1 - 200 = 1 from rfl]
    exact (List.drop_one _).symm
  · simp only [if_neg hlen, lastN]
    have : (hist ++ [({ value := m, timestamp := now } : Telemetry)]).length - 200 = 0 := by
      omega
    rw [this, List.drop_zero]

/-- `storeSensorData` never touches the device map. -/
theorem storeSensorData_iotDevices (s : IoTState) (d : String) (m : IoTMessage)
    (now : Nat) : (storeSensorData s d m now).1.iotDevices = s.iotDevices := rfl

/-- Folding telemetry appends keeps exactly the last 200 samples of the
stored history extended with the appended ones, in arrival order. -/
theorem storeAllTelemetry_history (d : String) (msgs : List (IoTMessage × Nat))
    (s : IoTState) (h : ((s.sensorData.lookup d).getD []).length ≤ 200) :
    ((storeAllTelemetry s d msgs).sensorData.lookup d).getD [] =
      lastN 200 (((s.sensorData.lookup d).getD []) ++
        msgs.map (fun p => ({ value := p.1, timestamp := p.2 } : Telemetry))) := by
  induction msgs generalizing s with
  | nil =>
      simp only [storeAllTelemetry, List.foldl_nil, List.map_nil, List.append_nil]
      exact (lastN_of_le _ _ h).symm
  | cons p rest ih =>
      have hstep := storeSensorData_history s d p.1 p.2 h
      have hbound :
          (((storeSensorData s d p.1 p.2).1.sensorData.lookup d).getD []).length ≤ 200 := by
        rw [hstep, length_lastN]
        omega
      have htail := ih ((storeSensorData s d p.1 p.2).1) hbound
      have hrun : storeAllTelemetry s d (p :: rest) =
          storeAllTelemetry ((storeSensorData s d p.1 p.2).1) d rest := rfl
      rw [hrun, htail, hstep, lastN_append_lastN, List.append_assoc,
        List.singleton_append, List.map_cons]

/-- C1: for every device, after more than 200 telemetry appends
`getSensorHistory(D, 200)` returns exactly the last 200 samples in
arrival order (FIFO eviction of the oldest on each overflowing append);
and for any number of appends the stored sequence holds
`min 200 n` samples, hence never more than 200. -/
theorem telemetry_history_fifo_bounded (d : String)
    (msgs : List (IoTMessage × Nat)) (hlen : 200 < msgs.length) :
    getSensorHistory (storeAllTelemetry initialIoTState d msgs) d 200 =
      (msgs.map (fun p => ({ value := p.1, timestamp := p.2 } : Telemetry))).drop
        (msgs.length - 200) ∧
    ∀ msgs2 : List (IoTMessage × Nat),
      (((storeAllTelemetry initialIoTState d msgs2).sensorData.lookup d).getD []).length =
        min 200 msgs2.length := by
  have hchar : ∀ ms : List (IoTMessage × Nat),
      ((storeAllTelemetry initialIoTState d ms).sensorData.lookup d).getD [] =
        lastN 200 (ms.map (fun p => ({ value := p.1, timestamp := p.2 } : Telemetry))) := by
    intro ms
    have := storeAllTelemetry_history d ms initialIoTState (by simp [initialIoTState, List.lookup])
    simpa [initialIoTState, List.lookup] using this
  constructor
  · have hstored := hchar msgs
    have hslen : (((storeAllTelemetry initialIoTState d msgs).sensorData.lookup d).getD []).length = 200 := by
      rw [hstored, length_lastN, List.length_map]
      omega
    simp only [getSensorHistory, jsSliceLast]
    rw [if_neg (by omega : ¬ (200 : Nat) = 0), hslen]
    rw [Nat.sub_self, List.drop_zero, hstored, lastN, List.length_map]
  · intro msgs2
    rw [hchar msgs2, length_lastN, List.length_map]

/-- Concrete burst of 201 distinct telemetry messages. -/
def telemetryBurst : List (IoTMessage × Nat) :=
  (List.range 201).map (fun i => ({ battery := some (i + 1) }, i))

/-- Witness for C1 at a concrete 201-message burst. -/
theorem telemetry_history_fifo_bounded_witness :
    200 < telemetryBurst.length ∧
    (getSensorHistory (storeAllTelemetry initialIoTState "dev1" telemetryBurst) "dev1" 200 =
      (telemetryBurst.map (fun p => ({ value := p.1, timestamp := p.2 } : Telemetry))).drop
        (telemetryBurst.length - 200) ∧
     ∀ msgs2 : List (IoTMessage × Nat),
       (((storeAllTelemetry initialIoTState "dev1" msgs2).sensorData.lookup "dev1").getD []).length =
         min 200 msgs2.length) :=
  ⟨by simp [telemetryBurst],
   telemetry_history_fifo_bounded "dev1" telemetryBurst (by simp [telemetryBurst])⟩

/-! ## C6 — upsert merge semantics -/

/-- The record `updateDevice` starts from: the existing record, or the
fresh `'online'` record created when the device is absent. -/
def upsertBase (st : IoTState) (d : String) (now : Nat) : Device :=
  (st.iotDevices.lookup d).getD { id := d, status := "online", lastSeen := now }

/-- Field-level characterization of the record stored by `updateDevice`:
last-seen is refreshed, each truthy supplied field overwrites, every
other field keeps the base record's value. -/
theorem lookup_updateDevice_self (st : IoTState) (d : String) (m : IoTMessage)
    (now : Nat) :
    (updateDevice st d m now).iotDevices.lookup d =
      some { id := (upsertBase st d now).id,
             status := (upsertBase st d now).status,
             lastSeen := now,
             batteryLevel := if truthyNat m.battery then m.battery
               else (upsertBase st d now).batteryLevel,
             signalStrength := if truthyNat m.signal then m.signal
               else (upsertBase st d now).signalStrength,
             location := if truthyObj m.location then m.location
               else (upsertBase st d now).location,
             firmware := (upsertBase st d now).firmware } := by
  cases hl : st.iotDevices.lookup d with
  | none =>
      simp only [updateDevice, upsertBase, hl, Option.getD_none, lookup_mapSet_self]
      split <;> split <;> split <;> rfl
  | some dv =>
      simp only [updateDevice, upsertBase, hl, Option.getD_some, lookup_mapSet_self]
      split <;> split <;> split <;> rfl

/-- `updateDevice` leaves every other device's record alone. -/
theorem lookup_updateDevice_ne (st : IoTState) (d d2 : String) (m : IoTMessage)
    (now : Nat) (h : d2 ≠ d) :
    (updateDevice st d m now).iotDevices.lookup d2 = st.iotDevices.lookup d2 := by
  simp only [updateDevice]
  exact lookup_mapSet_ne _ _ _ _ h

/-- C6 counterexample: a message supplying the in-range battery value 0
does not record it — `if (message.battery)` treats 0 as absent — so the
claim that any supplied in-range battery value (including 0) is merged
is false; the device record is created with `batteryLevel` unset. -/
theorem battery_zero_not_recorded :
    (getDeviceStatus (updateDevice initialIoTState "dev1"
        { battery := some 0 } 5) "dev1").map Device.batteryLevel = some none ∧
    ¬ ((getDeviceStatus (updateDevice initialIoTState "dev1"
        { battery := some 0 } 5) "dev1").map Device.batteryLevel = some (some 0)) := by
  constructor
  · rfl
  · decide

/-- C6 amended: `updateDevice` creates the record (status `'online'`)
if absent, refreshes last-seen, merges exactly the supplied *truthy*
fields (a supplied battery or signal of 0 is treated as absent and not
recorded; omitted fields are unchanged), and leaves every other device's
record untouched. -/
theorem upsert_merges_truthy_fields (st : IoTState) (d : String)
    (m : IoTMessage) (now : Nat) :
    (updateDevice st d m now).iotDevices.lookup d =
      some { id := (upsertBase st d now).id,
             status := (upsertBase st d now).status,
             lastSeen := now,
             batteryLevel := if truthyNat m.battery then m.battery
               else (upsertBase st d now).batteryLevel,
             signalStrength := if truthyNat m.signal then m.signal
               else (upsertBase st d now).signalStrength,
             location := if truthyObj m.location then m.location
               else (upsertBase st d now).location,
             firmware := (upsertBase st d now).firmware } ∧
    ∀ d2, d2 ≠ d →
      (updateDevice st d m now).iotDevices.lookup d2 = st.iotDevices.lookup d2 :=
  ⟨lookup_updateDevice_self st d m now,
   fun d2 h => lookup_updateDevice_ne st d d2 m now h⟩

/-- Witness for C6 (amended): a fresh device with truthy battery 80 and
falsy signal 0; the stored record and the untouched-other-device part
are evaluated concretely. -/
theorem upsert_merges_truthy_fields_witness :
    (updateDevice initialIoTState "dev1"
        { battery := some 80, signal := some 0 } 9).iotDevices.lookup "dev1" =
      some { id := "dev1", status := "online", lastSeen := 9,
             batteryLevel := some 80, signalStrength := none,
             location := none, firmware := none } ∧
    ("other" : String) ≠ "dev1" ∧
    (updateDevice initialIoTState "dev1"
        { battery := some 80, signal := some 0 } 9).iotDevices.lookup "other" = none :=
  ⟨((upsert_merges_truthy_fields initialIoTState "dev1"
      { battery := some 80, signal := some 0 } 9).1).trans (by decide),
   by decide,
   ((upsert_merges_truthy_fields initialIoTState "dev1"
      { battery := some 80, signal := some 0 } 9).2 "other" (by decide)).trans rfl⟩

/-! ## C7 — unknown devices are not exceptional -/

theorem updateDevice_sensorData (s : IoTState) (d : String) (m : IoTMessage)
    (now : Nat) : (updateDevice s d m now).sensorData = s.sensorData := rfl

theorem lookup_storeSensorData_ne (s : IoTState) (did d : String)
    (m : IoTMessage) (now : Nat) (h : d ≠ did) :
    (storeSensorData s did m now).1.sensorData.lookup d = s.sensorData.lookup d := by
  simp only [storeSensorData]
  exact lookup_mapSet_ne _ _ _ _ h

theorem updateDeviceStatus_sensorData (s : IoTState) (did : String)
    (m : IoTMessage) :
    (updateDeviceStatus s did m).1.sensorData = s.sensorData := by
  cases hl : s.iotDevices.lookup did <;> simp [updateDeviceStatus, hl]

theorem lookup_updateDeviceStatus_ne (s : IoTState) (did d : String)
    (m : IoTMessage) (h : d ≠ did) :
    (updateDeviceStatus s did m).1.iotDevices.lookup d = s.iotDevices.lookup d := by
  cases hl : s.iotDevices.lookup did with
  | none => simp [updateDeviceStatus, hl]
  | some dv =>
      simp only [updateDeviceStatus, hl]
      exact lookup_mapSet_ne _ _ _ _ h

/-- Processing one message leaves both maps unchanged at every key other
than the message's device id. -/
theorem processMessage_lookup_ne (s : IoTState) (msg : InboundMessage)
    (d : String) (h : topicDeviceId msg.topic ≠ d) :
    (processMessage s msg).1.iotDevices.lookup d = s.iotDevices.lookup d ∧
    (processMessage s msg).1.sensorData.lookup d = s.sensorData.lookup d := by
  have hne : d ≠ topicDeviceId msg.topic := Ne.symm h
  cases hp : msg.parsed with
  | none => simp [processMessage, hp]
  | some m =>
      by_cases ht : topicMessageType msg.topic = "telemetry"
      · simp [processMessage, hp, ht, storeSensorData_iotDevices,
          updateDevice_sensorData, lookup_updateDevice_ne _ _ _ _ _ hne,
          lookup_storeSensorData_ne _ _ _ _ _ hne]
      · by_cases hs : topicMessageType msg.topic = "status"
        · simp [processMessage, hp, ht, hs, updateDeviceStatus_sensorData,
            updateDevice_sensorData, lookup_updateDeviceStatus_ne _ _ _ _ hne,
            lookup_updateDevice_ne _ _ _ _ _ hne]
        · by_cases hn : topicMessageType msg.topic = "nfc"
          · simp [processMessage, hp, ht, hs, hn, updateDevice_sensorData,
              lookup_updateDevice_ne _ _ _ _ _ hne]
          · simp [processMessage, hp, ht, hs, hn, updateDevice_sensorData,
              lookup_updateDevice_ne _ _ _ _ _ hne]

/-- Processing any number of messages none of which addresses `d` leaves
both maps unchanged at `d`. -/
theorem runMessages_lookup_ne (msgs : List InboundMessage) (d : String)
    (h : ∀ msg ∈ msgs, topicDeviceId msg.topic ≠ d) (s : IoTState) :
    (runMessages s msgs).iotDevices.lookup d = s.iotDevices.lookup d ∧
    (runMessages s msgs).sensorData.lookup d = s.sensorData.lookup d := by
  induction msgs generalizing s with
  | nil => exact ⟨rfl, rfl⟩
  | cons msg rest ih =>
      have hmsg := h msg (List.mem_cons_self msg rest)
      have hrest : ∀ m ∈ rest, topicDeviceId m.topic ≠ d :=
        fun m hm => h m (List.mem_cons_of_mem msg hm)
      have hstep := processMessage_lookup_ne s msg d hmsg
      have htail := ih hrest (processMessage s msg).1
      have hrun : runMessages s (msg :: rest) =
          runMessages (processMessage s msg).1 rest := rfl
      rw [hrun]
      exact ⟨htail.1.trans hstep.1, htail.2.trans hstep.2⟩

/-- C7: for a device never addressed by any ingested message, `get`
reports not-found (and the HTTP route answers 404) and `history` returns
the empty sequence for every limit; both are total functions, so neither
raises an error. -/
theorem unknown_device_not_exceptional (msgs : List InboundMessage) (d : String)
    (h : ∀ msg ∈ msgs, topicDeviceId msg.topic ≠ d) :
    getDeviceStatus (runMessages initialIoTState msgs) d = none ∧
    (∀ limit, getSensorHistory (runMessages initialIoTState msgs) d limit = []) ∧
    (routeGetDevice (runMessages initialIoTState msgs) d).1 = 404 := by
  have hinv := runMessages_lookup_ne msgs d h initialIoTState
  have h1 : getDeviceStatus (runMessages initialIoTState msgs) d = none := hinv.1
  refine ⟨h1, ?_, ?_⟩
  · intro limit
    have h2 : (runMessages initialIoTState msgs).sensorData.lookup d = none := hinv.2
    simp [getSensorHistory, h2, jsSliceLast]
  · simp [routeGetDevice, h1]

/-- Witness for C7: two messages for `dev1`, queried for `dev2`. -/
theorem unknown_device_not_exceptional_witness :
    (∀ msg ∈ [({ topic := "iot/dev1/telemetry", parsed := some {}, now := 0 } : InboundMessage),
              { topic := "iot/dev1/status", parsed := some {}, now := 1 }],
        topicDeviceId msg.topic ≠ "dev2") ∧
    (getDeviceStatus (runMessages initialIoTState
        [{ topic := "iot/dev1/telemetry", parsed := some {}, now := 0 },
         { topic := "iot/dev1/status", parsed := some {}, now := 1 }]) "dev2" = none ∧
     (∀ limit, getSensorHistory (runMessages initialIoTState
        [{ topic := "iot/dev1/telemetry", parsed := some {}, now := 0 },
         { topic := "iot/dev1/status", parsed := some {}, now := 1 }]) "dev2" limit = []) ∧
     (routeGetDevice (runMessages initialIoTState
        [{ topic := "iot/dev1/telemetry", parsed := some {}, now := 0 },
         { topic := "iot/dev1/status", parsed := some {}, now := 1 }]) "dev2").1 = 404) :=
  ⟨by decide,
   unknown_device_not_exceptional _ "dev2" (by decide)⟩

/-! ## C10 — devices default to and stay `'online'` without status messages -/

/-- A record stored by `updateDevice` keeps the base status, which is
`'online'` whenever the previous record (if any) was `'online'`. -/
theorem updateDevice_status_online (st : IoTState) (d : String) (m : IoTMessage)
    (now : Nat) (hst : ∀ dv, st.iotDevices.lookup d = some dv → dv.status = "online")
    (dev : Device)
    (hdev : (updateDevice st d m now).iotDevices.lookup d = some dev) :
    dev.status = "online" := by
  rw [lookup_updateDevice_self] at hdev
  injection hdev with hdev
  rw [← hdev]
  show (upsertBase st d now).status = "online"
  unfold upsertBase
  cases hl : st.iotDevices.lookup d with
  | none => rfl
  | some dv => exact hst dv hl

/-- For a non-`status` message, the device map after processing is the
one produced by `updateDevice`. -/
theorem processMessage_iotDevices_nonstatus (s : IoTState) (msg : InboundMessage)
    (m : IoTMessage) (hp : msg.parsed = some m)
    (hty : topicMessageType msg.topic ≠ "status") :
    (processMessage s msg).1.iotDevices =
      (updateDevice s (topicDeviceId msg.topic) m msg.now).iotDevices := by
  by_cases ht : topicMessageType msg.topic = "telemetry"
  · simp [processMessage, hp, ht, storeSensorData_iotDevices]
  · by_cases hn : topicMessageType msg.topic = "nfc"
    · simp [processMessage, hp, ht, hn, hty]
    · simp [processMessage, hp, ht, hn, hty]

/-- Ingestion invariant: if no processed message carries an explicit
`status` message kind for device `d`, then `d`'s record (if present)
has status `'online'`. -/
theorem runMessages_status_online (msgs : List InboundMessage) (d : String)
    (h : ∀ msg ∈ msgs, topicDeviceId msg.topic = d →
      topicMessageType msg.topic ≠ "status")
    (s : IoTState)
    (hs : ∀ dv, s.iotDevices.lookup d = some dv → dv.status = "online") :
    ∀ dev, (runMessages s msgs).iotDevices.lookup d = some dev →
      dev.status = "online" := by
  induction msgs generalizing s with
  | nil => exact hs
  | cons msg rest ih =>
      have hrest : ∀ m ∈ rest, topicDeviceId m.topic = d →
          topicMessageType m.topic ≠ "status" :=
        fun m hm => h m (List.mem_cons_of_mem msg hm)
      have hrun : runMessages s (msg :: rest) =
          runMessages (processMessage s msg).1 rest := rfl
      rw [hrun]
      apply ih hrest
      intro dv hdv
      by_cases hdid : topicDeviceId msg.topic = d
      · have hty := h msg (List.mem_cons_self msg rest) hdid
        cases hp : msg.parsed with
        | none =>
            have hnone : (processMessage s msg).1 = s := by
              simp [processMessage, hp]
            rw [hnone] at hdv
            exact hs dv hdv
        | some m =>
            rw [processMessage_iotDevices_nonstatus s msg m hp hty, hdid] at hdv
            exact updateDevice_status_online s d m msg.now hs dv hdv
      · have hpres := (processMessage_lookup_ne s msg d hdid).1
        rw [hpres] at hdv
        exact hs dv hdv

/-- Values of an association list contain every looked-up value. -/
theorem mem_values_of_lookup {α : Type} (l : List (String × α)) (k : String)
    (v : α) (h : l.lookup k = some v) : v ∈ l.map Prod.snd := by
  induction l with
  | nil => simp [List.lookup] at h
  | cons p t ih =>
      obtain ⟨a, b⟩ := p
      by_cases hka : k = a
      · subst hka
        simp [List.lookup] at h
        simp [h]
      · have hf : (k == a) = false := by simp [hka]
        simp only [List.lookup, hf] at h
        simp [ih h]

/-- `getNetworkHealth().onlineDevices` is the number of registry records
whose status field is `'online'`. -/
theorem getNetworkHealth_onlineDevices (st : IoTState) :
    (getNetworkHealth st).onlineDevices =
      ((getAllDevices st).filter (fun dv => dv.status = "online")).length := by
  by_cases h : (getAllDevices st).length = 0
  · have hnil : getAllDevices st = [] := List.length_eq_zero.mp h
    simp [getNetworkHealth, hnil]
  · simp [getNetworkHealth, h]

/-- C10: a device whose record was created by the ingestion path and that
never received an explicit `status`-kind message has status `'online'`,
is counted among the online devices by `getNetworkHealth` (whose online
count is exactly the number of `'online'` records), and an explicit
status message whose parsed record lacks a `status` field also sets the
device's status to `'online'`. -/
theorem ingested_devices_online (msgs : List InboundMessage) (d : String)
    (h : ∀ msg ∈ msgs, topicDeviceId msg.topic = d →
      topicMessageType msg.topic ≠ "status")
    (dev : Device)
    (hdev : (runMessages initialIoTState msgs).iotDevices.lookup d = some dev) :
    dev.status = "online" ∧
    dev ∈ (getAllDevices (runMessages initialIoTState msgs)).filter
        (fun dv => dv.status = "online") ∧
    (getNetworkHealth (runMessages initialIoTState msgs)).onlineDevices =
      ((getAllDevices (runMessages initialIoTState msgs)).filter
        (fun dv => dv.status = "online")).length ∧
    ∀ (st : IoTState) (d2 : String) (m : IoTMessage) (dev2 : Device),
      m.status = none →
      (updateDeviceStatus st d2 m).1.iotDevices.lookup d2 = some dev2 →
      dev2.status = "online" := by
  have honline : dev.status = "online" :=
    runMessages_status_online msgs d h initialIoTState
      (fun dv hdv => by simp [initialIoTState, List.lookup] at hdv) dev hdev
  refine ⟨honline, ?_, getNetworkHealth_onlineDevices _, ?_⟩
  · have hmem : dev ∈ getAllDevices (runMessages initialIoTState msgs) :=
      mem_values_of_lookup _ _ _ hdev
    simp [List.mem_filter, hmem, honline]
  · intro st d2 m dev2 hmstatus hdev2
    cases hl : st.iotDevices.lookup d2 with
    | none =>
        have : (updateDeviceStatus st d2 m).1 = st := by
          simp [updateDeviceStatus, hl]
        rw [this, hl] at hdev2
        cases hdev2
    | some dv =>
        simp only [updateDeviceStatus, hl, lookup_mapSet_self] at hdev2
        injection hdev2 with hdev2
        rw [← hdev2]
        simp [truthyStr, hmstatus]

/-- Witness for C10: one telemetry-only message creates `dev1` online;
the status-field-absent clause is instantiated at a concrete state. -/
theorem ingested_devices_online_witness :
    (∀ msg ∈ [({ topic := "iot/dev1/telemetry", parsed := some {}, now := 4 } : InboundMessage)],
        topicDeviceId msg.topic = "dev1" → topicMessageType msg.topic ≠ "status") ∧
    (runMessages initialIoTState
        [{ topic := "iot/dev1/telemetry", parsed := some {}, now := 4 }]).iotDevices.lookup "dev1" =
      some { id := "dev1", status := "online", lastSeen := 4 } ∧
    ({ id := "dev1", status := "online", lastSeen := 4 } : Device).status = "online" ∧
    (getNetworkHealth (runMessages initialIoTState
        [{ topic := "iot/dev1/telemetry", parsed := some {}, now := 4 }])).onlineDevices = 1 :=
  ⟨by decide, by decide,
   (ingested_devices_online
      [{ topic := "iot/dev1/telemetry", parsed := some {}, now := 4 }] "dev1"
      (by decide) { id := "dev1", status := "online", lastSeen := 4 } (by decide)).1,
   by decide⟩

end PackChain
